import Mathlib

/-!
Verification of the image conversion core of
`packages/ckeditor5-image/src/image/converters.js`:
the figure-to-image element converter, the srcset composite attribute
downcast converter, the generic scalar attribute downcast converter and
the declarative upcast srcset mapper, together with the consumable gate
and the widget image locator the converters depend on.

View and model trees are embedded as inductive types; stateful converter
bodies are embedded as pure functions returning the updated consumable
state and an explicit trace of the writer or conversion-API effects they
perform.
-/

/-- A consumable feature of a view node: its name, one of its classes, or
one of its attributes. -/
inductive Feature where
  | name : Feature
  | cls (c : String) : Feature
  | attr (k : String) : Feature
deriving DecidableEq, Repr

/-- A view tree node: an element with an identity, a tag name, attributes,
classes and children, or a text node. -/
inductive ViewNode where
  | element (nid : Nat) (name : String) (attrs : List (String × String))
      (classes : List String) (children : List ViewNode) : ViewNode
  | text (s : String) : ViewNode
deriving Repr

/-- A model tree node (only what the converters observe). -/
inductive ModelNode where
  | element (name : String) : ModelNode
  | text (s : String) : ModelNode
deriving DecidableEq, Repr

/-- Node identity used as the consumable key (text nodes share id 0; the
converters only ever key consumables on elements). -/
def ViewNode.nid : ViewNode → Nat
  | .element i _ _ _ _ => i
  | .text _ => 0

/-- `viewImage.getAttribute( key )`: the value of the attribute, or none
when absent (JS undefined). -/
def ViewNode.getAttr : ViewNode → String → Option String
  | .element _ _ attrs _ _, k => (attrs.find? (fun p => p.1 == k)).map (fun p => p.2)
  | .text _, _ => none

/-- `viewImage.hasAttribute( key )`. -/
def ViewNode.hasAttribute (v : ViewNode) (k : String) : Bool :=
  (v.getAttr k).isSome

/-- The direct children of a node (a text node has none). -/
def ViewNode.childrenOf : ViewNode → List ViewNode
  | .element _ _ _ _ cs => cs
  | .text _ => []

/-- Whether the node is an element named img. -/
def ViewNode.isImg : ViewNode → Bool
  | .element _ n _ _ _ => n == "img"
  | .text _ => false

/-- Whether the node itself carries the feature: elements carry their
name, their classes and their attributes; text nodes carry nothing. -/
def ViewNode.hasFeature : ViewNode → Feature → Bool
  | .element _ _ _ _ _, .name => true
  | .element _ _ _ cs _, .cls c => cs.contains c
  | .element _ _ as _ _, .attr k => as.any (fun p => p.1 == k)
  | .text _, _ => false

/-- Modelled from the spec: the view consumable gate (its implementation
lives outside this repository). It tracks which node features were
claimed; `test` is a non-destructive check that all listed features exist
on the node and are unconsumed, `consume` is its all-or-nothing
destructive counterpart. -/
structure Consumable where
  consumed : List (Nat × Feature)
deriving DecidableEq, Repr

/-- Whether the feature of the node with the given id is already consumed. -/
def Consumable.isConsumed (c : Consumable) (n : Nat) (f : Feature) : Bool :=
  decide ((n, f) ∈ c.consumed)

/-- Modelled from the spec: non-destructive test that ALL listed features
on the node are present and still unconsumed. -/
def Consumable.test (c : Consumable) (node : ViewNode) (fs : List Feature) : Bool :=
  fs.all (fun f => node.hasFeature f && !c.isConsumed node.nid f)

/-- Modelled from the spec: atomically mark all listed features consumed
and report true; if any is missing or already consumed, report false and
leave the state untouched (all-or-nothing). -/
def Consumable.consume (c : Consumable) (node : ViewNode) (fs : List Feature) :
    Bool × Consumable :=
  if c.test node fs then
    (true, ⟨c.consumed ++ fs.map (fun f => (node.nid, f))⟩)
  else
    (false, c)

/-- Modelled from the spec: the downcast (model) consumable gate, keyed by
model item identity and event name; the engine registers every attribute
change event as consumable before dispatch, so consumption fails exactly
when the event was already consumed. -/
structure ModelConsumable where
  consumed : List (Nat × String)
deriving DecidableEq, Repr

/-- Whether the downcast event of the item is already consumed. -/
def ModelConsumable.isConsumed (c : ModelConsumable) (n : Nat) (evtName : String) : Bool :=
  decide ((n, evtName) ∈ c.consumed)

/-- Modelled from the spec: destructive consume of a downcast event;
reports false and leaves the state untouched when already consumed. -/
def ModelConsumable.consume (c : ModelConsumable) (n : Nat) (evtName : String) :
    Bool × ModelConsumable :=
  if c.isConsumed n evtName then
    (false, c)
  else
    (true, ⟨(n, evtName) :: c.consumed⟩)

/-- Modelled from the spec: the widget image locator
`getViewImgFromWidget` of `image/utils` (outside this repository). If the
element is itself the functional img element it is returned; otherwise
its children and their children (the wrapper is shallow by construction)
are scanned in order for the first img element; absence yields none. -/
def getViewImgFromWidget (v : ViewNode) : Option ViewNode :=
  if v.isImg then
    some v
  else
    (v.childrenOf.flatMap (fun c => c :: c.childrenOf)).find? ViewNode.isImg

/-- Modelled from the spec: `first` of `ckeditor5-utils` — the first item
of an iterable, or null when it yields none. -/
def first (l : List α) : Option α :=
  l.head?

/-- An effect the element converter requests from the conversion API. -/
inductive ConvEffect where
  | consume (n : Nat) (fs : List Feature) : ConvEffect
  | convertItem (n : Nat) : ConvEffect
  | convertChildren (n : Nat) : ConvEffect
  | updateConversionResult : ConvEffect
deriving DecidableEq, Repr

/-- The body of the `viewFigureToModel` converter. `consumable` is the
view consumable state of the pass; `convertItemRange` stands for the
delegated `conversionApi.convertItem`, giving the items of the model
range the delegate produced for the img element; `viewItem` is
`data.viewItem`, the figure element the `element:figure` event fired for.
The result is the ordered trace of conversion-API effects the converter
performs (it never touches a writer, and never consumes, itself). -/
def viewFigureToModel (consumable : Consumable)
    (convertItemRange : ViewNode → List ModelNode) (viewItem : ViewNode) :
    List ConvEffect :=
  if !consumable.test viewItem [.name, .cls "image"] then
    []
  else
    match getViewImgFromWidget viewItem with
    | none => []
    | some viewImage =>
      if !viewImage.hasAttribute "src" || !consumable.test viewImage [.name] then
        []
      else
        match first (convertItemRange viewImage) with
        | none => [.convertItem viewImage.nid]
        | some _ =>
          [.convertItem viewImage.nid, .convertChildren viewItem.nid,
            .updateConversionResult]

/-- A mutation the downcast converters request from the view writer,
always targeting the inner img element. -/
inductive WriterOp where
  | setAttr (k v : String) : WriterOp
  | removeAttr (k : String) : WriterOp
deriving DecidableEq, Repr

/-- The composite srcset model attribute value: a record with a `data`
field and an optional `width` field. A field holding none is absent
(JS undefined). -/
structure SrcsetValue where
  data : Option String
  width : Option String
deriving DecidableEq, Repr

/-- JS truthiness of an optional string field: an absent field
(undefined) and the empty string are falsy. -/
def jsTruthy : Option String → Bool
  | none => false
  | some s => s != ""

/-- The event payload of an `attribute:srcset:<imageType>` downcast event:
the changed model item (by identity) and the old and new composite
values; none stands for JS null. -/
structure SrcsetData where
  itemId : Nat
  attributeOldValue : Option SrcsetValue
  attributeNewValue : Option SrcsetValue
deriving Repr

/-- The body of the `srcsetAttributeConverter` converter. Returns the
updated downcast consumable and the trace of writer mutations on the
inner img element, or none when the body throws (reading the `data`
field of a null old value in the removal branch). The delegated
`mapper.toViewElement` and `getViewImgFromWidget` lookups only select the
mutation target and are left implicit in the trace. -/
def srcsetAttributeConverter (c : ModelConsumable) (evtName : String)
    (d : SrcsetData) : Option (ModelConsumable × List WriterOp) :=
  match ModelConsumable.consume c d.itemId evtName with
  | (false, c1) => some (c1, [])
  | (true, c1) =>
    match d.attributeNewValue with
    | none =>
      match d.attributeOldValue with
      | none => none
      | some srcset =>
        if jsTruthy srcset.data then
          some (c1,
            [.removeAttr "srcset", .removeAttr "sizes"]
              ++ (if jsTruthy srcset.width then [.removeAttr "width"] else []))
        else
          some (c1, [])
    | some srcset =>
      if jsTruthy srcset.data then
        some (c1,
          [.setAttr "srcset" (srcset.data.getD ""), .setAttr "sizes" "100vw"]
            ++ (if jsTruthy srcset.width then
                  [.setAttr "width" (srcset.width.getD "")]
                else []))
      else
        some (c1, [])

/-- A scalar model attribute value as the generic mirror converter sees
it: null, undefined, or a string. -/
inductive JSVal where
  | null : JSVal
  | undef : JSVal
  | str (s : String) : JSVal
deriving DecidableEq, Repr

/-- The JS coercion `value || ''` on a scalar attribute value: null,
undefined and the empty string all coerce to the empty string. -/
def jsOrEmptyString : JSVal → String
  | .null => ""
  | .undef => ""
  | .str s => s

/-- The body of the `modelToViewAttributeConverter` converter: consume
the event, then set (never remove) the view attribute on the inner img
element to the new value coerced through `value || ''`. -/
def modelToViewAttributeConverter (c : ModelConsumable) (evtName : String)
    (itemId : Nat) (attributeKey : String) (attributeNewValue : JSVal) :
    ModelConsumable × List WriterOp :=
  match ModelConsumable.consume c itemId evtName with
  | (false, c1) => (c1, [])
  | (true, c1) => (c1, [.setAttr attributeKey (jsOrEmptyString attributeNewValue)])

/-- The model value builder of the declared upcast srcset mapper in
`addUpcastImageConverters`: the `data` field is the raw view srcset
attribute value, the `width` field is the view width attribute, included
only when that attribute is present. -/
def upcastSrcsetModelValue (viewImage : ViewNode) : SrcsetValue :=
  { data := viewImage.getAttr "srcset"
    width :=
      if viewImage.hasAttribute "width" then viewImage.getAttr "width" else none }

/-- Apply one writer mutation to an attribute list: set overwrites or
appends, remove deletes. -/
def applyWriterOp (attrs : List (String × String)) : WriterOp → List (String × String)
  | .setAttr k v => attrs.filter (fun p => p.1 != k) ++ [(k, v)]
  | .removeAttr k => attrs.filter (fun p => p.1 != k)

/-- Apply a writer mutation trace to a view element (text nodes are never
mutation targets). -/
def applyWriterOps (v : ViewNode) (ops : List WriterOp) : ViewNode :=
  match v with
  | .element i n attrs cs ch => .element i n (ops.foldl applyWriterOp attrs) cs ch
  | .text s => .text s

/-! ### Helper lemmas shared by the claim theorems -/

/-- Consuming the event just pushed onto the consumed list reports it
consumed. -/
theorem ModelConsumable.isConsumed_head (l : List (Nat × String)) (n : Nat)
    (e : String) :
    (ModelConsumable.mk ((n, e) :: l)).isConsumed n e = true := by
  simp [ModelConsumable.isConsumed]

/-- When the event is already consumed, the srcset converter declines:
it returns the consumable untouched and performs no writer mutation. -/
theorem srcsetAttributeConverter_already_consumed (c : ModelConsumable)
    (evtName : String) (d : SrcsetData)
    (hc : c.isConsumed d.itemId evtName = true) :
    srcsetAttributeConverter c evtName d = some (c, []) := by
  unfold srcsetAttributeConverter ModelConsumable.consume
  simp [hc]

/-- Whenever the srcset converter returns successfully from an
unconsumed state, the returned consumable is the input state with the
event marked consumed. -/
theorem srcsetAttributeConverter_fresh_state (c : ModelConsumable)
    (evtName : String) (d : SrcsetData) (c1 : ModelConsumable)
    (ops : List WriterOp) (hc : c.isConsumed d.itemId evtName = false)
    (h : srcsetAttributeConverter c evtName d = some (c1, ops)) :
    c1 = ⟨(d.itemId, evtName) :: c.consumed⟩ := by
  obtain ⟨i, oldV, newV⟩ := d
  unfold srcsetAttributeConverter ModelConsumable.consume at h
  simp only [hc, Bool.false_eq_true, if_false] at h
  rcases newV with _ | v
  · rcases oldV with _ | o
    · simp at h
    · by_cases ho : jsTruthy o.data = true <;> simp [ho] at h <;> exact h.1.symm
  · by_cases hv : jsTruthy v.data = true <;> simp [hv] at h <;> exact h.1.symm

/-- When the event is already consumed, the generic mirror converter
declines with no writer mutation and an untouched consumable. -/
theorem modelToViewAttributeConverter_already_consumed (c : ModelConsumable)
    (evtName : String) (itemId : Nat) (key : String) (v : JSVal)
    (hc : c.isConsumed itemId evtName = true) :
    modelToViewAttributeConverter c evtName itemId key v = (c, []) := by
  unfold modelToViewAttributeConverter ModelConsumable.consume
  simp [hc]

/-- From an unconsumed state the generic mirror converter marks the event
consumed and writes the coerced value. -/
theorem modelToViewAttributeConverter_fresh (c : ModelConsumable)
    (evtName : String) (itemId : Nat) (key : String) (v : JSVal)
    (hc : c.isConsumed itemId evtName = false) :
    modelToViewAttributeConverter c evtName itemId key v
      = (⟨(itemId, evtName) :: c.consumed⟩, [.setAttr key (jsOrEmptyString v)]) := by
  unfold modelToViewAttributeConverter ModelConsumable.consume
  simp [hc]

/-- Truthiness of a present field is the non-emptiness test. -/
theorem jsTruthy_some (s : String) : jsTruthy (some s) = (s != "") :=
  rfl

/-! ### Claim theorems -/

/-- C1: Srcset round-trip. Downcasting the composite model value with
data "a 1x, b 2x" and width "300" from a fresh consumable sets view
srcset to "a 1x, b 2x", sizes to "100vw" and width to "300" on the inner
img element, and the declared upcast srcset mapper applied to an img
element carrying exactly those attributes reproduces the original
composite value exactly. -/
theorem srcset_round_trip_concrete :
    srcsetAttributeConverter ⟨[]⟩ "attribute:srcset:image"
        ⟨5, none, some ⟨some "a 1x, b 2x", some "300"⟩⟩
      = some (⟨[(5, "attribute:srcset:image")]⟩,
          [.setAttr "srcset" "a 1x, b 2x", .setAttr "sizes" "100vw",
            .setAttr "width" "300"])
    ∧ applyWriterOps (.element 2 "img" [("src", "x.png")] [] [])
          [.setAttr "srcset" "a 1x, b 2x", .setAttr "sizes" "100vw",
            .setAttr "width" "300"]
      = .element 2 "img"
          [("src", "x.png"), ("srcset", "a 1x, b 2x"), ("sizes", "100vw"),
            ("width", "300")] [] []
    ∧ upcastSrcsetModelValue
        (.element 2 "img"
          [("src", "x.png"), ("srcset", "a 1x, b 2x"), ("sizes", "100vw"),
            ("width", "300")] [] [])
      = ⟨some "a 1x, b 2x", some "300"⟩ := by
  refine ⟨rfl, rfl, rfl⟩

/-- C2: whenever the figure wrapper fails the name-and-class image
consumable test, or the inner img element is absent, lacks a src
attribute, or has its name feature already unavailable, the
viewFigureToModel converter performs no conversion-API effect at all:
no model or view mutation and no consumption. -/
theorem viewFigureToModel_guard_no_effects (c : Consumable)
    (convertItemRange : ViewNode → List ModelNode) (viewItem : ViewNode)
    (h : c.test viewItem [.name, .cls "image"] = false
       ∨ getViewImgFromWidget viewItem = none
       ∨ ∃ viewImage, getViewImgFromWidget viewItem = some viewImage
           ∧ (viewImage.hasAttribute "src" = false
              ∨ c.test viewImage [.name] = false)) :
    viewFigureToModel c convertItemRange viewItem = [] := by
  unfold viewFigureToModel
  rcases h with h | h | ⟨viewImage, hImg, h⟩
  · simp [h]
  · cases ht : c.test viewItem [.name, .cls "image"] <;> simp [ht, h]
  · cases ht : c.test viewItem [.name, .cls "image"]
    · simp [ht]
    · rcases h with h | h <;> simp [ht, hImg, h]

/-- C2 witness: a figure without the image class (with a perfectly good
inner img) produces no effect. -/
theorem viewFigureToModel_guard_no_effects_witness :
    viewFigureToModel ⟨[]⟩ (fun _ => [ModelNode.element "image"])
        (.element 1 "figure" [] [] [.element 2 "img" [("src", "x.png")] [] []])
      = [] :=
  viewFigureToModel_guard_no_effects _ _ _ (Or.inl (by decide))

/-- C6: when the guards pass but the delegated item conversion produces
no model node (its range yields no first item), the converter stops after
the delegation: it converts no children, reports no result, and issues no
consume of its own, so the wrapper guard feature stays unconsumed by this
converter. -/
theorem viewFigureToModel_delegate_declines (c : Consumable)
    (convertItemRange : ViewNode → List ModelNode) (viewItem viewImage : ViewNode)
    (h1 : c.test viewItem [.name, .cls "image"] = true)
    (h2 : getViewImgFromWidget viewItem = some viewImage)
    (h3 : viewImage.hasAttribute "src" = true)
    (h4 : c.test viewImage [.name] = true)
    (h5 : first (convertItemRange viewImage) = none) :
    viewFigureToModel c convertItemRange viewItem = [.convertItem viewImage.nid]
    ∧ (∀ n, ConvEffect.convertChildren n
        ∉ viewFigureToModel c convertItemRange viewItem)
    ∧ ConvEffect.updateConversionResult
        ∉ viewFigureToModel c convertItemRange viewItem
    ∧ (∀ n fs, ConvEffect.consume n fs
        ∉ viewFigureToModel c convertItemRange viewItem) := by
  have he : viewFigureToModel c convertItemRange viewItem
      = [.convertItem viewImage.nid] := by
    unfold viewFigureToModel
    simp [h1, h2, h3, h4, h5]
  refine ⟨he, ?_, ?_, ?_⟩ <;> simp [he]

/-- C6 witness: a well-formed image figure whose delegate produces an
empty range yields only the delegation effect. -/
theorem viewFigureToModel_delegate_declines_witness :
    viewFigureToModel ⟨[]⟩ (fun _ => [])
        (.element 1 "figure" [] ["image"] [.element 2 "img" [("src", "x.png")] [] []])
      = [ConvEffect.convertItem 2] :=
  (viewFigureToModel_delegate_declines ⟨[]⟩ (fun _ => [])
      (.element 1 "figure" [] ["image"] [.element 2 "img" [("src", "x.png")] [] []])
      (.element 2 "img" [("src", "x.png")] [] [])
      (by decide) rfl (by decide) (by decide) rfl).1

/-- C8: the consumable gate's consume is all-or-nothing: when one of the
requested features is already consumed, the call reports failure and
returns the consumption state completely unchanged. -/
theorem consumable_consume_all_or_nothing (c : Consumable) (node : ViewNode)
    (fs : List Feature) (f : Feature) (hf : f ∈ fs)
    (hc : c.isConsumed node.nid f = true) :
    c.consume node fs = (false, c) := by
  have ht : c.test node fs = false := by
    unfold Consumable.test
    rw [List.all_eq_false]
    exact ⟨f, hf, by simp [hc]⟩
  unfold Consumable.consume
  simp [ht]

/-- C8 witness: consuming name plus class image when the name is already
consumed fails and leaves the state unchanged. -/
theorem consumable_consume_all_or_nothing_witness :
    Consumable.consume ⟨[(1, Feature.name)]⟩
        (.element 1 "figure" [] ["image"] []) [Feature.name, Feature.cls "image"]
      = (false, ⟨[(1, Feature.name)]⟩) :=
  consumable_consume_all_or_nothing _ _ _ Feature.name (by decide) (by decide)

/-- C3 counterexample: a new composite value whose data field is present
but holds the empty string. The claim as stated requires the converter to
set view srcset to that data; the code treats the empty string as falsy
and sets no view attribute at all (while still consuming the event). -/
theorem srcset_set_empty_data_counterexample :
    (SrcsetValue.mk (some "") none).data.isSome = true
    ∧ srcsetAttributeConverter ⟨[]⟩ "attribute:srcset:image"
        ⟨0, none, some ⟨some "", none⟩⟩
      = some (⟨[(0, "attribute:srcset:image")]⟩, []) :=
  ⟨rfl, rfl⟩

/-- C3 amended: on a srcset change with an available consumable and a
non-null new value, if the new value has a non-empty data field the
converter sets view srcset to that data, unconditionally sets sizes to
the literal 100vw, and sets width exactly when the new value's width
field is present and non-empty; if the data field is absent or empty,
no view attribute is set. -/
theorem srcset_set_branch_truthy (c : ModelConsumable) (evtName : String)
    (d : SrcsetData) (v : SrcsetValue)
    (hc : c.isConsumed d.itemId evtName = false)
    (hn : d.attributeNewValue = some v) :
    (∀ s w, v.data = some s → s ≠ "" → v.width = some w → w ≠ "" →
        srcsetAttributeConverter c evtName d
          = some (⟨(d.itemId, evtName) :: c.consumed⟩,
              [.setAttr "srcset" s, .setAttr "sizes" "100vw",
                .setAttr "width" w]))
    ∧ (∀ s, v.data = some s → s ≠ "" → jsTruthy v.width = false →
        srcsetAttributeConverter c evtName d
          = some (⟨(d.itemId, evtName) :: c.consumed⟩,
              [.setAttr "srcset" s, .setAttr "sizes" "100vw"]))
    ∧ (jsTruthy v.data = false →
        srcsetAttributeConverter c evtName d
          = some (⟨(d.itemId, evtName) :: c.consumed⟩, [])) := by
  obtain ⟨i, oldV, newV⟩ := d
  cases hn
  unfold srcsetAttributeConverter ModelConsumable.consume
  refine ⟨?_, ?_, ?_⟩
  · intro s w hs hs0 hw hw0
    simp [hc, hs, hw, jsTruthy_some, bne_iff_ne, hs0, hw0]
  · intro s hs hs0 hw
    simp [hc, hs, jsTruthy_some, bne_iff_ne, hs0, hw]
  · intro hv
    simp [hc, hv]

/-- C3 witness: a fresh consumable and a new value with non-empty data
and width fields produce exactly the three set mutations. -/
theorem srcset_set_branch_truthy_witness :
    srcsetAttributeConverter ⟨[]⟩ "attribute:srcset:image"
        ⟨7, none, some ⟨some "a 1x", some "640"⟩⟩
      = some (⟨[(7, "attribute:srcset:image")]⟩,
          [.setAttr "srcset" "a 1x", .setAttr "sizes" "100vw",
            .setAttr "width" "640"]) :=
  (srcset_set_branch_truthy ⟨[]⟩ "attribute:srcset:image"
      ⟨7, none, some ⟨some "a 1x", some "640"⟩⟩ ⟨some "a 1x", some "640"⟩
      (by decide) rfl).1 "a 1x" "640" rfl (by decide) rfl (by decide)

/-- C4 counterexample: removal where the old value's width field is
present but holds the empty string. The claim as stated requires view
width to be removed exactly when the old value has a width field; the
code treats the empty string as falsy and removes only srcset and
sizes. -/
theorem srcset_removal_empty_width_counterexample :
    (SrcsetValue.mk (some "x") (some "")).width.isSome = true
    ∧ srcsetAttributeConverter ⟨[]⟩ "attribute:srcset:image"
        ⟨0, some ⟨some "x", some ""⟩, none⟩
      = some (⟨[(0, "attribute:srcset:image")]⟩,
          [.removeAttr "srcset", .removeAttr "sizes"]) :=
  ⟨rfl, rfl⟩

/-- C4 amended: on a srcset change with an available consumable and a
null new value, if the old value had a non-empty data field the converter
removes view srcset and sizes, and additionally removes view width
exactly when the old value's width field was present and non-empty; if
the old data field was absent or empty, no view attribute is removed. -/
theorem srcset_removal_branch_truthy (c : ModelConsumable) (evtName : String)
    (d : SrcsetData) (o : SrcsetValue)
    (hc : c.isConsumed d.itemId evtName = false)
    (hn : d.attributeNewValue = none)
    (ho : d.attributeOldValue = some o) :
    (jsTruthy o.data = true → jsTruthy o.width = true →
        srcsetAttributeConverter c evtName d
          = some (⟨(d.itemId, evtName) :: c.consumed⟩,
              [.removeAttr "srcset", .removeAttr "sizes", .removeAttr "width"]))
    ∧ (jsTruthy o.data = true → jsTruthy o.width = false →
        srcsetAttributeConverter c evtName d
          = some (⟨(d.itemId, evtName) :: c.consumed⟩,
              [.removeAttr "srcset", .removeAttr "sizes"]))
    ∧ (jsTruthy o.data = false →
        srcsetAttributeConverter c evtName d
          = some (⟨(d.itemId, evtName) :: c.consumed⟩, [])) := by
  obtain ⟨i, oldV, newV⟩ := d
  cases hn
  cases ho
  unfold srcsetAttributeConverter ModelConsumable.consume
  refine ⟨?_, ?_, ?_⟩
  · intro h1 h2
    simp [hc, h1, h2]
  · intro h1 h2
    simp [hc, h1, h2]
  · intro h1
    simp [hc, h1]

/-- C4 witness: removing a value that held non-empty data and width
removes all three view attributes. -/
theorem srcset_removal_branch_truthy_witness :
    srcsetAttributeConverter ⟨[]⟩ "attribute:srcset:image"
        ⟨9, some ⟨some "a 1x", some "640"⟩, none⟩
      = some (⟨[(9, "attribute:srcset:image")]⟩,
          [.removeAttr "srcset", .removeAttr "sizes", .removeAttr "width"]) :=
  (srcset_removal_branch_truthy ⟨[]⟩ "attribute:srcset:image"
      ⟨9, some ⟨some "a 1x", some "640"⟩, none⟩ ⟨some "a 1x", some "640"⟩
      (by decide) rfl rfl).1 (by decide) (by decide)

/-- C5: the generic scalar mirror converter, on an available consumable
with a null new value, sets the view attribute to the empty string on the
inner img element and never removes it. -/
theorem modelToView_null_sets_empty_string (c : ModelConsumable)
    (evtName : String) (itemId : Nat) (attributeKey : String)
    (hc : c.isConsumed itemId evtName = false) :
    modelToViewAttributeConverter c evtName itemId attributeKey .null
      = (⟨(itemId, evtName) :: c.consumed⟩, [.setAttr attributeKey ""])
    ∧ ∀ k, WriterOp.removeAttr k
        ∉ (modelToViewAttributeConverter c evtName itemId attributeKey .null).2 := by
  have he := modelToViewAttributeConverter_fresh c evtName itemId attributeKey .null hc
  exact ⟨he, by simp [he, jsOrEmptyString]⟩

/-- C5 witness: setting model alt to null on a fresh consumable writes an
empty view alt attribute. -/
theorem modelToView_null_sets_empty_string_witness :
    modelToViewAttributeConverter ⟨[]⟩ "attribute:alt:image" 3 "alt" .null
      = (⟨[(3, "attribute:alt:image")]⟩, [.setAttr "alt" ""]) :=
  (modelToView_null_sets_empty_string ⟨[]⟩ "attribute:alt:image" 3 "alt"
      (by decide)).1

/-- C9: the srcset converter consumes the event before inspecting the
value, so on both no-mutation branches (non-null new value with falsy
data, or removal where the old value had falsy data) the event ends up
consumed with no writer mutation, and a later handler's consume of the
same event necessarily fails. -/
theorem srcset_consumes_before_inspecting (c : ModelConsumable)
    (evtName : String) (d : SrcsetData)
    (hc : c.isConsumed d.itemId evtName = false)
    (h : (∃ v, d.attributeNewValue = some v ∧ jsTruthy v.data = false)
       ∨ (d.attributeNewValue = none
          ∧ ∃ o, d.attributeOldValue = some o ∧ jsTruthy o.data = false)) :
    srcsetAttributeConverter c evtName d
      = some (⟨(d.itemId, evtName) :: c.consumed⟩, [])
    ∧ ModelConsumable.consume ⟨(d.itemId, evtName) :: c.consumed⟩
        d.itemId evtName
      = (false, ⟨(d.itemId, evtName) :: c.consumed⟩) := by
  constructor
  · obtain ⟨i, oldV, newV⟩ := d
    unfold srcsetAttributeConverter ModelConsumable.consume
    rcases h with ⟨v, hv, hvd⟩ | ⟨hn, o, ho, hod⟩
    · cases hv
      simp [hc, hvd]
    · cases hn
      cases ho
      simp [hc, hod]
  · unfold ModelConsumable.consume
    simp [ModelConsumable.isConsumed]

/-- C9 witness: a new value with only a width field consumes the event,
writes nothing, and blocks a later consume. -/
theorem srcset_consumes_before_inspecting_witness :
    srcsetAttributeConverter ⟨[]⟩ "attribute:srcset:image"
        ⟨2, none, some ⟨none, some "300"⟩⟩
      = some (⟨[(2, "attribute:srcset:image")]⟩, [])
    ∧ ModelConsumable.consume ⟨[(2, "attribute:srcset:image")]⟩ 2
        "attribute:srcset:image"
      = (false, ⟨[(2, "attribute:srcset:image")]⟩) :=
  srcset_consumes_before_inspecting ⟨[]⟩ "attribute:srcset:image"
    ⟨2, none, some ⟨none, some "300"⟩⟩ (by decide)
    (Or.inl ⟨⟨none, some "300"⟩, rfl, rfl⟩)

/-- C10: the generic scalar mirror converter coerces every falsy new
value — null, undefined and the empty string — to the empty string when
writing the view attribute, and writes every non-empty string value
unchanged. -/
theorem modelToView_falsy_coercion (c : ModelConsumable) (evtName : String)
    (itemId : Nat) (attributeKey : String)
    (hc : c.isConsumed itemId evtName = false) :
    (∀ v, v = JSVal.null ∨ v = JSVal.undef ∨ v = JSVal.str "" →
        modelToViewAttributeConverter c evtName itemId attributeKey v
          = (⟨(itemId, evtName) :: c.consumed⟩, [.setAttr attributeKey ""]))
    ∧ (∀ s, s ≠ "" →
        modelToViewAttributeConverter c evtName itemId attributeKey (.str s)
          = (⟨(itemId, evtName) :: c.consumed⟩, [.setAttr attributeKey s])) := by
  constructor
  · rintro v (rfl | rfl | rfl) <;>
      simpa [jsOrEmptyString] using
        modelToViewAttributeConverter_fresh c evtName itemId attributeKey _ hc
  · intro s _
    simpa [jsOrEmptyString] using
      modelToViewAttributeConverter_fresh c evtName itemId attributeKey (.str s) hc

/-- C10 witness: an undefined alt value is written as the empty string. -/
theorem modelToView_falsy_coercion_witness :
    modelToViewAttributeConverter ⟨[]⟩ "attribute:alt:image" 6 "alt" .undef
      = (⟨[(6, "attribute:alt:image")]⟩, [.setAttr "alt" ""]) :=
  (modelToView_falsy_coercion ⟨[]⟩ "attribute:alt:image" 6 "alt" (by decide)).1
    .undef (Or.inr (Or.inl rfl))

/-- C7 counterexample: the srcset converter run on a fresh consumable
with a new value holding only a width field performs the destructive
consume (the event goes from unconsumed to consumed) yet mutates no
output at all, so it does not call consume only immediately before
mutating output, and it never calls the non-destructive test first. -/
theorem srcset_consume_not_followed_by_mutation :
    (ModelConsumable.mk []).isConsumed 0 "attribute:srcset:image" = false
    ∧ srcsetAttributeConverter ⟨[]⟩ "attribute:srcset:image"
        ⟨0, none, some ⟨none, some "300"⟩⟩
      = some (⟨[(0, "attribute:srcset:image")]⟩, [])
    ∧ (ModelConsumable.mk [(0, "attribute:srcset:image")]).isConsumed 0
        "attribute:srcset:image" = true :=
  ⟨by decide, rfl, by decide⟩

/-- The element converter never requests a consume: every effect it emits
is a delegation or the final result report. -/
theorem viewFigureToModel_no_consume (c : Consumable)
    (convertItemRange : ViewNode → List ModelNode) (viewItem : ViewNode)
    (n : Nat) (fs : List Feature) :
    ConvEffect.consume n fs ∉ viewFigureToModel c convertItemRange viewItem := by
  unfold viewFigureToModel
  split
  · simp
  · split
    · simp
    · split
      · simp
      · split <;> simp

/-- C7 amended: every handler in the core mutates output only after a
successful destructive consume of its event, and a handler whose
consumable check fails declines with no mutation and an unchanged
consumable state; the element converter additionally never consumes at
all and declines without effects when its guard test fails. The
attribute converters may however consume without any mutation
following. -/
theorem handlers_mutate_only_after_consume :
    (∀ (c : ModelConsumable) (evtName : String) (d : SrcsetData)
        (c1 : ModelConsumable) (ops : List WriterOp),
        srcsetAttributeConverter c evtName d = some (c1, ops) → ops ≠ [] →
          c.isConsumed d.itemId evtName = false
          ∧ c1.isConsumed d.itemId evtName = true)
    ∧ (∀ (c : ModelConsumable) (evtName : String) (d : SrcsetData),
        c.isConsumed d.itemId evtName = true →
          srcsetAttributeConverter c evtName d = some (c, []))
    ∧ (∀ (c : ModelConsumable) (evtName : String) (itemId : Nat)
        (key : String) (v : JSVal) (c1 : ModelConsumable)
        (ops : List WriterOp),
        modelToViewAttributeConverter c evtName itemId key v = (c1, ops) →
          ops ≠ [] →
          c.isConsumed itemId evtName = false
          ∧ c1.isConsumed itemId evtName = true)
    ∧ (∀ (c : ModelConsumable) (evtName : String) (itemId : Nat)
        (key : String) (v : JSVal),
        c.isConsumed itemId evtName = true →
          modelToViewAttributeConverter c evtName itemId key v = (c, []))
    ∧ (∀ (c : Consumable) (convertItemRange : ViewNode → List ModelNode)
        (viewItem : ViewNode),
        (∀ n fs, ConvEffect.consume n fs
          ∉ viewFigureToModel c convertItemRange viewItem)
        ∧ (c.test viewItem [.name, .cls "image"] = false →
            viewFigureToModel c convertItemRange viewItem = [])) := by
  refine ⟨?_, ?_, ?_, ?_, ?_⟩
  · intro c evtName d c1 ops hres hops
    by_cases hc : c.isConsumed d.itemId evtName = true
    · rw [srcsetAttributeConverter_already_consumed c evtName d hc] at hres
      simp at hres
      exact absurd hres.2 hops
    · have hc0 : c.isConsumed d.itemId evtName = false := by
        simpa using hc
      have h1 := srcsetAttributeConverter_fresh_state c evtName d c1 ops hc0 hres
      subst h1
      exact ⟨hc0, ModelConsumable.isConsumed_head c.consumed d.itemId evtName⟩
  · intro c evtName d hc
    exact srcsetAttributeConverter_already_consumed c evtName d hc
  · intro c evtName itemId key v c1 ops hres hops
    by_cases hc : c.isConsumed itemId evtName = true
    · rw [modelToViewAttributeConverter_already_consumed c evtName itemId key v hc]
        at hres
      simp at hres
      exact absurd hres.2 hops
    · have hc0 : c.isConsumed itemId evtName = false := by
        simpa using hc
      rw [modelToViewAttributeConverter_fresh c evtName itemId key v hc0] at hres
      simp at hres
      rw [← hres.1]
      exact ⟨hc0, ModelConsumable.isConsumed_head c.consumed itemId evtName⟩
  · intro c evtName itemId key v hc
    exact modelToViewAttributeConverter_already_consumed c evtName itemId key v hc
  · intro c convertItemRange viewItem
    refine ⟨fun n fs => viewFigureToModel_no_consume c convertItemRange viewItem n fs,
      fun ht => ?_⟩
    unfold viewFigureToModel
    simp [ht]

/-- C7 witness: an already-consumed srcset event makes the converter
decline with no mutation and an unchanged consumable. -/
theorem handlers_mutate_only_after_consume_witness :
    srcsetAttributeConverter ⟨[(4, "attribute:srcset:image")]⟩
        "attribute:srcset:image" ⟨4, none, some ⟨some "a 1x", none⟩⟩
      = some (⟨[(4, "attribute:srcset:image")]⟩, []) :=
  handlers_mutate_only_after_consume.2.1 ⟨[(4, "attribute:srcset:image")]⟩
    "attribute:srcset:image" ⟨4, none, some ⟨some "a 1x", none⟩⟩ (by decide)
